import Mathlib

/-!
Verification of the UIN game-world orchestration engine
(`uin_engine`: domain entities, command handlers, memory service,
event bus, NPC behavior system) against its specification.

Modelling conventions, fixed once for the whole development:
* Python `dict`s (insertion ordered, unique keys) are association lists
  `List (String × α)`; `d.get(k)` is `alookup`, `d[k] = v` is `aset`,
  `del d[k]` is `aerase`, and in-place mutation of a value fetched from
  the dict is `amodify` (first matching key, as a Python dict holds one
  entry per key).
* `datetime.time` values are minutes since midnight (`Nat`); schedule
  entry times (strings such as "08:10" in the source, compared via
  `time.fromisoformat`) are likewise pre-parsed to minutes.
* Float-valued fields (certainty, difficulty, affinity) are `Rat`.
* Async methods are ordinary functions; awaited sub-calls are passed in
  as function arguments (the repository is `String → Option GameWorld`
  or an association-list store, the LLM is a function argument).
  Background scheduling (`asyncio.create_task`) is modelled by returning
  the list of scheduled task descriptions.
* `raise ValueError(...)` is `Except.error`; other runtime errors Python
  would raise (`TypeError` from a bad call arity, `AttributeError` from
  a missing field, pydantic validation errors) get their own `PyError`
  constructors so that `except ValueError` clauses can be transcribed
  faithfully.
-/

namespace UinEngine

/-! ### Python dict operations on association lists -/

/-- `d.get(k)` / `d[k]`: value for the first matching key. -/
def alookup [DecidableEq κ] (k : κ) : List (κ × α) → Option α
  | [] => none
  | (k₁, v) :: rest => if k₁ = k then some v else alookup k rest

/-- `d[k] = v`: replace the value under an existing key, else append. -/
def aset [DecidableEq κ] (k : κ) (v : α) : List (κ × α) → List (κ × α)
  | [] => [(k, v)]
  | (k₁, v₁) :: rest => if k₁ = k then (k₁, v) :: rest else (k₁, v₁) :: aset k v rest

/-- In-place mutation of the object stored under key `k`. -/
def amodify [DecidableEq κ] (k : κ) (f : α → α) : List (κ × α) → List (κ × α)
  | [] => []
  | (k₁, v) :: rest => if k₁ = k then (k₁, f v) :: rest else (k₁, v) :: amodify k f rest

/-- `del d[k]`: drop the entry under the first matching key. -/
def aerase [DecidableEq κ] (k : κ) : List (κ × α) → List (κ × α)
  | [] => []
  | (k₁, v) :: rest => if k₁ = k then rest else (k₁, v) :: aerase k rest

theorem alookup_amodify_self [DecidableEq κ] (k : κ) (f : α → α) (l : List (κ × α)) :
    alookup k (amodify k f l) = (alookup k l).map f := by
  induction l with
  | nil => simp [alookup, amodify]
  | cons hd tl ih =>
    obtain ⟨k₁, v⟩ := hd
    by_cases h : k₁ = k <;> simp [alookup, amodify, h, ih]

theorem alookup_amodify_ne [DecidableEq κ] (k k' : κ) (hne : k ≠ k') (f : α → α)
    (l : List (κ × α)) : alookup k' (amodify k f l) = alookup k' l := by
  induction l with
  | nil => simp [amodify]
  | cons hd tl ih =>
    obtain ⟨k₁, v⟩ := hd
    by_cases h : k₁ = k
    · subst h
      simp [alookup, amodify, hne]
    · simp [alookup, amodify, h, ih]

theorem alookup_aset_self [DecidableEq κ] (k : κ) (v : α) (l : List (κ × α)) :
    alookup k (aset k v l) = some v := by
  induction l with
  | nil => simp [alookup, aset]
  | cons hd tl ih =>
    obtain ⟨k₁, v₁⟩ := hd
    by_cases h : k₁ = k <;> simp [alookup, aset, h, ih]

theorem alookup_eq_none_of_not_mem [DecidableEq κ] (k : κ) (l : List (κ × α))
    (h : k ∉ l.map Prod.fst) : alookup k l = none := by
  induction l with
  | nil => simp [alookup]
  | cons hd tl ih =>
    obtain ⟨k₁, v⟩ := hd
    simp only [List.map_cons, List.mem_cons, not_or] at h
    have hk : k₁ ≠ k := fun hh => h.1 hh.symm
    simp only [alookup, if_neg hk]
    exact ih h.2

theorem alookup_aerase_self [DecidableEq κ] (k : κ) (l : List (κ × α))
    (hnodup : (l.map Prod.fst).Nodup) : alookup k (aerase k l) = none := by
  induction l with
  | nil => simp [alookup, aerase]
  | cons hd tl ih =>
    obtain ⟨k₁, v⟩ := hd
    simp only [List.map_cons, List.nodup_cons] at hnodup
    by_cases h : k₁ = k
    · subst h
      simp only [aerase, if_pos rfl]
      exact alookup_eq_none_of_not_mem k₁ tl hnodup.1
    · simp only [aerase, if_neg h, alookup, if_neg h]
      exact ih hnodup.2

/-! ### Domain entities (`uin_engine/domain/entities.py`,
`uin_engine/domain/value_objects.py`) -/

/-- `value_objects.KnowledgeEntry` (frozen pydantic model). -/
structure KnowledgeEntry where
  fact_id : String
  certainty : Rat := 1
deriving Repr, DecidableEq

/-- `entities.Fact`. -/
structure Fact where
  id : String
  content : String
  is_secret : Bool := false
deriving Repr, DecidableEq

/-- `entities.Clue`. -/
structure Clue where
  fact_id : String
  description : String
  difficulty : Rat := 0
  is_found : Bool := false
deriving Repr, DecidableEq

/-- `entities.GameObject`. -/
structure GameObject where
  id : String
  name : String
  description : String
  clues : List Clue := []
deriving Repr, DecidableEq

/-- `entities.Location`. The free-form `properties` map
(`Dict[str, Any]`) is read by no handler and is omitted. -/
structure Location where
  id : String
  name : String
  description : String
  connections : List String := []
  objects : List GameObject := []
deriving Repr, DecidableEq

/-- `entities.ScheduleEntry`; `time` is minutes since midnight. -/
structure ScheduleEntry where
  time : Nat
  action_type : String
  target : Option String := none
  message : Option String := none
deriving Repr, DecidableEq

/-- `entities.Character`. The `relationships` and `emotional_state`
maps are read by no handler under verification and are omitted. -/
structure Character where
  id : String
  name : String
  description : String
  location_id : String
  knowledge : List (String × KnowledgeEntry) := []
  narrative_memory : List String := []
  goals : List String := []
  schedule : List ScheduleEntry := []
deriving Repr, DecidableEq

/-- `entities.DialogueReplica`; `game_time` in minutes since midnight. -/
structure DialogueReplica where
  speaker_id : String
  message : String
  game_time : Nat
deriving Repr, DecidableEq

/-- `entities.DialogueSession`. -/
structure DialogueSession where
  id : String
  participants : List String
  history : List DialogueReplica := []
  is_active : Bool := true
deriving Repr, DecidableEq

/-- `entities.Solution`. -/
structure Solution where
  killer_id : String
  required_fact_ids : List String := []
deriving Repr, DecidableEq

/-- `entities.GameWorld` (aggregate root). `game_time` defaults to
`time(8, 0)` = 480 minutes. -/
structure GameWorld where
  id : String
  name : String
  player_id : String
  locations : List (String × Location) := []
  characters : List (String × Character) := []
  facts : List (String × Fact) := []
  game_time : Nat := 480
  active_dialogues : List (String × DialogueSession) := []
  solution : Option Solution := none
deriving Repr, DecidableEq

/-- `time.strftime` zero padding. -/
def pad2 (n : Nat) : String :=
  if n < 10 then "0" ++ toString n else toString n

/-- `game_time.strftime("%H:%M")` on minutes since midnight. -/
def formatTime (m : Nat) : String :=
  pad2 ((m / 60) % 24) ++ ":" ++ pad2 (m % 60)

/-! ### Commands (`uin_engine/application/commands/`) -/

/-- `character.MoveCharacterCommand`. -/
structure MoveCharacterCommand where
  world_id : String
  character_id : String
  target_location_id : String
deriving Repr, DecidableEq

/-- `dialogue.TalkToCharacterCommand`. -/
structure TalkToCharacterCommand where
  world_id : String
  speaker_id : String
  listener_id : String
  message : Option String := none
  session_id : Option String := none
deriving Repr, DecidableEq

/-- `dialogue.EndDialogueCommand`. -/
structure EndDialogueCommand where
  world_id : String
  session_id : String
deriving Repr, DecidableEq

/-- `investigation.ExamineObjectCommand`. -/
structure ExamineObjectCommand where
  world_id : String
  player_id : String
  object_id : String
  location_id : String
deriving Repr, DecidableEq

/-- `investigation.AccuseCharacterCommand`. -/
structure AccuseCharacterCommand where
  world_id : String
  player_id : String
  accused_character_id : String
deriving Repr, DecidableEq

/-! ### Domain events (`uin_engine/domain/events.py`): a closed set of
concrete subclasses of the abstract `DomainEvent` base class. -/

inductive DomainEvent where
  | characterMoved (character_id : String) (from_location_id : String)
      (to_location_id : String)
  | factDiscovered (character_id : String) (fact_id : String)
      (location_id : Option String) (source : Option String)
  | dialogueOccurred (speaker_id : String) (listener_id : String)
      (dialogue_text : String) (revealed_fact_ids : List String)
deriving Repr, DecidableEq

/-! ### Accuse handler
(`uin_engine/application/use_cases/accuse_character.py`) -/

/-- `accuse_character.AccusationResult`. -/
structure AccusationResult where
  is_correct : Bool
  message : String
deriving Repr, DecidableEq

namespace AccuseCharacterHandler

/-- Message of the no-solution branch (source line 40). -/
def noSolutionMessage : String :=
  "This mystery has no defined solution. The game continues..."

/-- Message of the wrong-person branch (source line 47). -/
def wrongPersonMessage (accusedName : String) : String :=
  "You accuse " ++ accusedName ++
    ", but you are wrong. The real killer has gotten away. You lose."

/-- Message of the missing-evidence branch (source lines 60-61). -/
def missingEvidenceMessage (accusedName : String) (missingCount : Nat) : String :=
  "You correctly identified " ++ accusedName ++
    " as the killer, but you lack the evidence to prove it! " ++
    "You needed to find " ++ toString missingCount ++
    " more piece(s) of evidence. The case is dismissed. You lose."

/-- Message of the win branch (source line 67). -/
def winMessage (accusedName : String) : String :=
  "You confront " ++ accusedName ++
    " with the evidence. They confess to everything! " ++
    "You have solved the case. You win!"

/-- `set(required_fact_ids) - set(player.knowledge.keys())`: the
distinct required fact ids with no knowledge entry. -/
def missingFacts (player : Character) (solution : Solution) : List String :=
  (solution.required_fact_ids.filter
    (fun f => (alookup f player.knowledge).isNone)).dedup

/-- `AccuseCharacterHandler.execute`. The repository is the awaited
`get_by_id` call; error-message ids are elided from the transcription
(only the fact that a `ValueError` is raised matters downstream). -/
def execute (repo : String → Option GameWorld) (command : AccuseCharacterCommand) :
    Except String AccusationResult :=
  match repo command.world_id with
  | none => .error "World not found."
  | some world =>
    match alookup command.player_id world.characters with
    | none => .error "Player not found."
    | some player =>
      match alookup command.accused_character_id world.characters with
      | none => .error "Accused character not found."
      | some accused =>
        match world.solution with
        | none => .ok ⟨false, noSolutionMessage⟩
        | some solution =>
          if solution.killer_id = command.accused_character_id then
            if (missingFacts player solution).isEmpty then
              .ok ⟨true, winMessage accused.name⟩
            else
              .ok ⟨false,
                missingEvidenceMessage accused.name (missingFacts player solution).length⟩
          else
            .ok ⟨false, wrongPersonMessage accused.name⟩

/-- All required fact ids are covered by the knowledge map exactly when
the missing-fact set is empty. -/
theorem missingFacts_eq_nil_iff (player : Character) (solution : Solution) :
    missingFacts player solution = [] ↔
      ∀ f ∈ solution.required_fact_ids, (alookup f player.knowledge).isSome := by
  unfold missingFacts
  rw [List.dedup_eq_nil, List.filter_eq_nil_iff]
  constructor
  · intro h f hf
    have := h f hf
    simpa [Option.isNone_iff_eq_none, Option.isSome_iff_exists,
      Option.eq_none_iff_forall_not_mem] using this
  · intro h f hf
    have := h f hf
    simp only [Option.isNone_iff_eq_none]
    intro hc
    rw [hc] at this
    simp at this

end AccuseCharacterHandler

/-- C1: with the world, player and accused all resolving, `execute`
follows the ordered decision table of `accuse_character.py`: no
solution present gives the neutral message with `is_correct = false`;
with a solution, an accused id different from the killer id gives the
wrong-person message with `is_correct = false`; the right killer with
uncovered `required_fact_ids` gives the message counting the missing
facts with `is_correct = false`; the right killer with every required
fact known gives the win message with `is_correct = true`. -/
theorem accuse_execute_decision_table
    (repo : String → Option GameWorld) (command : AccuseCharacterCommand)
    (world : GameWorld) (player accused : Character)
    (hw : repo command.world_id = some world)
    (hp : alookup command.player_id world.characters = some player)
    (ha : alookup command.accused_character_id world.characters = some accused) :
    (world.solution = none →
      AccuseCharacterHandler.execute repo command =
        .ok ⟨false, AccuseCharacterHandler.noSolutionMessage⟩) ∧
    (∀ solution, world.solution = some solution →
      (command.accused_character_id ≠ solution.killer_id →
        AccuseCharacterHandler.execute repo command =
          .ok ⟨false, AccuseCharacterHandler.wrongPersonMessage accused.name⟩) ∧
      (command.accused_character_id = solution.killer_id →
        ¬ (∀ f ∈ solution.required_fact_ids, (alookup f player.knowledge).isSome) →
        AccuseCharacterHandler.execute repo command =
          .ok ⟨false, AccuseCharacterHandler.missingEvidenceMessage accused.name
            (AccuseCharacterHandler.missingFacts player solution).length⟩ ∧
        0 < (AccuseCharacterHandler.missingFacts player solution).length) ∧
      (command.accused_character_id = solution.killer_id →
        (∀ f ∈ solution.required_fact_ids, (alookup f player.knowledge).isSome) →
        AccuseCharacterHandler.execute repo command =
          .ok ⟨true, AccuseCharacterHandler.winMessage accused.name⟩)) := by
  unfold AccuseCharacterHandler.execute
  simp only [hw, hp, ha]
  refine ⟨fun hs => by simp only [hs], fun solution hs => ?_⟩
  simp only [hs]
  refine ⟨fun hne => ?_, fun heq hmiss => ?_, fun heq hall => ?_⟩
  · rw [if_neg (fun hc => hne hc.symm)]
  · have hnonempty : AccuseCharacterHandler.missingFacts player solution ≠ [] := by
      intro hnil
      exact hmiss ((AccuseCharacterHandler.missingFacts_eq_nil_iff player solution).mp hnil)
    rw [if_pos heq.symm, if_neg (by simpa [List.isEmpty_iff] using hnonempty)]
    exact ⟨rfl, by
      cases hcase : AccuseCharacterHandler.missingFacts player solution with
      | nil => exact absurd hcase hnonempty
      | cons a l => simp⟩
  · have hempty : AccuseCharacterHandler.missingFacts player solution = [] :=
      (AccuseCharacterHandler.missingFacts_eq_nil_iff player solution).mpr hall
    rw [if_pos heq.symm, if_pos (by simp [List.isEmpty_iff, hempty])]

/-! Concrete accusation fixture (the scenario of spec section 8: killer
"sophie", required facts fact1 and fact2, player knowing only fact1). -/

def c1Player : Character :=
  { id := "player", name := "Player", description := "A player",
    location_id := "bridge",
    knowledge := [("fact1", { fact_id := "fact1", certainty := 1 })] }

def c1Sophie : Character :=
  { id := "sophie", name := "Sophie", description := "A suspect",
    location_id := "deck" }

def c1Solution : Solution :=
  { killer_id := "sophie", required_fact_ids := ["fact1", "fact2"] }

def c1World : GameWorld :=
  { id := "test_world", name := "Test World", player_id := "player",
    characters := [("player", c1Player), ("sophie", c1Sophie)],
    solution := some c1Solution }

def c1Repo : String → Option GameWorld := fun wid =>
  if wid = "test_world" then some c1World else none

def c1Command : AccuseCharacterCommand :=
  { world_id := "test_world", player_id := "player",
    accused_character_id := "sophie" }

/-- Witness for C1: accusing the killer while knowing only one of the
two required facts yields the missing-evidence loss naming one missing
piece of evidence. -/
theorem accuse_execute_decision_table_witness :
    AccuseCharacterHandler.execute c1Repo c1Command =
      .ok ⟨false, AccuseCharacterHandler.missingEvidenceMessage "Sophie" 1⟩ := by
  have h := ((accuse_execute_decision_table c1Repo c1Command c1World c1Player c1Sophie
    (by decide) (by decide) (by decide)).2 c1Solution rfl).2.1 rfl (by decide)
  exact h.1

/-! ### Move handler
(`uin_engine/application/use_cases/move_character.py`)

The handler works on a caller-owned world and returns it; it publishes
events on the bus and runs the compaction check on every character
whose memory changed. The embedding returns those effects explicitly:
the published events and the ids passed to
`compress_memory_if_needed`, in call order. A raised `ValueError`
carries the state of the world object at the moment of the raise, so
that "aborts before any mutation" is a provable statement. -/

/-- The observable outcome of a successful `MoveCharacterHandler.execute`. -/
structure MoveResult where
  world : GameWorld
  events : List DomainEvent
  compress_checks : List String
deriving Repr, DecidableEq

namespace MoveCharacterHandler

/-- "I saw ... leave the ..." narrative line (source line 52). -/
def leaveLine (time_str charName locName : String) : String :=
  "[" ++ time_str ++ "] I saw " ++ charName ++ " leave the " ++ locName ++ "."

/-- "I moved from the ... to the ..." narrative line (source line 61). -/
def movedLine (time_str fromName toName : String) : String :=
  "[" ++ time_str ++ "] I moved from the " ++ fromName ++ " to the " ++ toName ++ "."

/-- "I saw ... arrive at the ..." narrative line (source line 69). -/
def arriveLine (time_str charName locName : String) : String :=
  "[" ++ time_str ++ "] I saw " ++ charName ++ " arrive at the " ++ locName ++ "."

/-- `MoveCharacterHandler.execute`. Error-message ids are elided; only
the raised `ValueError` and the unmutated world matter downstream. -/
def execute (command : MoveCharacterCommand) (world : GameWorld) :
    Except (String × GameWorld) MoveResult :=
  match alookup command.character_id world.characters with
  | none => .error ("Character not found in world.", world)
  | some character =>
    if character.location_id = command.target_location_id then
      .ok { world := world, events := [], compress_checks := [] }
    else
      match alookup command.target_location_id world.locations with
      | none => .error ("Target location not found.", world)
      | some target_location =>
        match alookup character.location_id world.locations with
        | none =>
          .error ("Location is not accessible from the current location.", world)
        | some current_location =>
          if command.target_location_id ∈ current_location.connections then
            let time_str := formatTime world.game_time
            -- 1. observers in the source location (before moving)
            let chars₁ := world.characters.map (fun p =>
              if p.2.id ≠ character.id ∧ p.2.location_id = character.location_id then
                (p.1, { p.2 with narrative_memory := p.2.narrative_memory ++
                  [leaveLine time_str character.name current_location.name] })
              else p)
            let sourceObserverIds := (world.characters.filter (fun p =>
              decide (p.2.id ≠ character.id ∧
                p.2.location_id = character.location_id))).map (fun p => p.2.id)
            -- 2./3. move the character and log the move
            let chars₂ := amodify command.character_id (fun c =>
              { c with
                location_id := command.target_location_id
                narrative_memory := c.narrative_memory ++
                  [movedLine time_str current_location.name target_location.name] }) chars₁
            -- 4. observers in the destination location (after moving,
            -- the mover itself excluded by its id)
            let chars₃ := chars₂.map (fun p =>
              if p.2.id ≠ character.id ∧ p.2.location_id = command.target_location_id then
                (p.1, { p.2 with narrative_memory := p.2.narrative_memory ++
                  [arriveLine time_str character.name target_location.name] })
              else p)
            let destObserverIds := (chars₂.filter (fun p =>
              decide (p.2.id ≠ character.id ∧
                p.2.location_id = command.target_location_id))).map (fun p => p.2.id)
            .ok { world := { world with characters := chars₃ }
                  events := [.characterMoved character.id character.location_id
                    command.target_location_id]
                  compress_checks :=
                    sourceObserverIds ++ [character.id] ++ destObserverIds }
          else
            .error ("Location is not accessible from the current location.", world)

end MoveCharacterHandler

/-- C10: a move command whose target equals the current location of an
existing character returns the world unchanged with no events and no
compaction checks and never raises, with no assumption at all about the
target location existing or being connected (the no-op short-circuit
at source lines 32-34 precedes both checks). -/
theorem move_execute_noop_same_location
    (command : MoveCharacterCommand) (world : GameWorld) (character : Character)
    (hc : alookup command.character_id world.characters = some character)
    (hloc : character.location_id = command.target_location_id) :
    MoveCharacterHandler.execute command world =
      .ok { world := world, events := [], compress_checks := [] } := by
  unfold MoveCharacterHandler.execute
  simp only [hc, if_pos hloc]

/-- A location whose connection list does not contain its own id. -/
def c10Lounge : Location :=
  { id := "lounge", name := "Lounge", description := "lounge", connections := [] }

def c10Alice : Character :=
  { id := "alice", name := "Alice", description := "a", location_id := "lounge" }

def c10World : GameWorld :=
  { id := "w10", name := "W10", player_id := "alice",
    locations := [("lounge", c10Lounge)],
    characters := [("alice", c10Alice)] }

def c10Command : MoveCharacterCommand :=
  { world_id := "w10", character_id := "alice", target_location_id := "lounge" }

/-- Witness for C10: moving to the current location succeeds unchanged
even though the connection list of "lounge" does not contain "lounge". -/
theorem move_execute_noop_same_location_witness :
    MoveCharacterHandler.execute c10Command c10World =
      .ok { world := c10World, events := [], compress_checks := [] } :=
  move_execute_noop_same_location c10Command c10World c10Alice (by decide) (by decide)

/-! ### LLM port DTOs (`uin_engine/application/ports/llm_service.py`) -/

/-- `llm_service.DialogueGenerationContext`. The talk handler passes an
extra `all_scenario_facts` keyword that the pydantic model does not
declare; with the default `extra` policy it is dropped, so it is not a
field here. -/
structure DialogueGenerationContext where
  speaker_name : String
  speaker_description : String
  speaker_goals : List String
  speaker_knowledge : String
  listener_name : String
  listener_description : String
  listener_goals : List String
  listener_knowledge : String
  recent_dialogue_history : String
  current_topic : String
deriving Repr, DecidableEq

/-- `llm_service.DialogueGenerationResponse`. The `emotional_impact`
map is read by no handler and is omitted. -/
structure DialogueGenerationResponse where
  text : String
  newly_revealed_facts : List String := []
deriving Repr, DecidableEq

/-- Python runtime errors distinguished because `except ValueError`
clauses catch only the first kind. -/
inductive PyError where
  | valueError (message : String)
  | typeError (message : String)
  | attributeError (message : String)
  | validationError (message : String)
  | keyError (message : String)
deriving Repr, DecidableEq

/-! ### Talk handler
(`uin_engine/application/use_cases/talk_to_character.py`)

The module imports `DialogueEntry` from `uin_engine.domain.entities`,
but `entities.py` defines no such class, and `execute` appends to
`world.dialogue_history`, a field `GameWorld` does not declare. The
embedding transcribes the `execute` body to its deepest reachable
point: validations, context construction (which fails with a pydantic
validation error when `command.message` is `None`, since
`current_topic` is a required `str`), the LLM call, the four episodic
memory appends, the knowledge grants, and then the failing
`world.dialogue_history.append` (an `AttributeError` on the entity
model); the save, the event publication and the compaction checks
below that line are unreachable. -/

/-- A raise out of the talk handler: the error, the state of the
handler-held world copy at the raise (none when the world lookup itself
failed), and the worlds saved to the repository before the raise. -/
structure TalkFailure where
  error : PyError
  world : Option GameWorld
  saves : List GameWorld
deriving Repr, DecidableEq

/-- The observable outcome of a completed talk execution (never
produced by the source as it stands; kept for the result type). -/
structure TalkOutcome where
  response : DialogueGenerationResponse
  world : GameWorld
  saves : List GameWorld
  events : List DomainEvent
  compress_checks : List String
deriving Repr, DecidableEq

namespace TalkToCharacterHandler

/-- "I said to ...: ..." narrative line (source line 78). -/
def saidLine (time_str listenerName msg : String) : String :=
  "[" ++ time_str ++ "] I said to " ++ listenerName ++ ": \"" ++ msg ++ "\""

/-- "... said to me: ..." narrative line (source line 79). -/
def saidToMeLine (time_str speakerName msg : String) : String :=
  "[" ++ time_str ++ "] " ++ speakerName ++ " said to me: \"" ++ msg ++ "\""

/-- "I replied to ...: ..." narrative line (source line 80). -/
def repliedLine (time_str speakerName text : String) : String :=
  "[" ++ time_str ++ "] I replied to " ++ speakerName ++ ": \"" ++ text ++ "\""

/-- "... replied to me: ..." narrative line (source line 81). -/
def repliedToMeLine (time_str listenerName text : String) : String :=
  "[" ++ time_str ++ "] " ++ listenerName ++ " replied to me: \"" ++ text ++ "\""

/-- "I learned something new from ..." narrative line (source line 92). -/
def learnedLine (time_str listenerName content : String) : String :=
  "[" ++ time_str ++ "] I learned something new from " ++ listenerName ++
    ": " ++ content

/-- `"; ".join([f.content for f in world.facts.values() if f.id in knowledge])`. -/
def knowledgeSummary (world : GameWorld) (knowledge : List (String × KnowledgeEntry)) :
    String :=
  String.intercalate "; "
    (((world.facts.map Prod.snd).filter
      (fun f => (alookup f.id knowledge).isSome)).map Fact.content)

/-- `TalkToCharacterHandler.execute`. -/
def execute (repo : String → Option GameWorld)
    (generate_dialogue : DialogueGenerationContext → DialogueGenerationResponse)
    (command : TalkToCharacterCommand) : Except TalkFailure TalkOutcome :=
  match repo command.world_id with
  | none => .error { error := .valueError "World not found.", world := none, saves := [] }
  | some world =>
    match alookup command.speaker_id world.characters with
    | none =>
      .error { error := .valueError "Speaker not found.", world := some world, saves := [] }
    | some speaker =>
      match alookup command.listener_id world.characters with
      | none =>
        .error { error := .valueError "Listener not found."
                 world := some world
                 saves := [] }
      | some listener =>
        if speaker.location_id ≠ listener.location_id then
          .error { error := .valueError "Speaker and listener are not in the same location."
                   world := some world
                   saves := [] }
        else
          match command.message with
          | none =>
            -- DialogueGenerationContext declares current_topic as a
            -- required str; command.message = None fails pydantic
            -- validation when the context is constructed, before any
            -- state mutation.
            .error { error := .validationError "current_topic must be a string"
                     world := some world
                     saves := [] }
          | some message =>
            let context : DialogueGenerationContext := {
              speaker_name := speaker.name
              speaker_description := speaker.description
              speaker_goals := speaker.goals
              speaker_knowledge := knowledgeSummary world speaker.knowledge
              listener_name := listener.name
              listener_description := listener.description
              listener_goals := listener.goals
              listener_knowledge := knowledgeSummary world listener.knowledge
              recent_dialogue_history := String.intercalate "\n"
                (listener.narrative_memory.drop (listener.narrative_memory.length - 10))
              current_topic := message }
            let response := generate_dialogue context
            let time_str := formatTime world.game_time
            -- episodic memory: speaker, listener, listener, speaker
            let chars₁ := amodify command.speaker_id (fun c =>
              { c with narrative_memory := c.narrative_memory ++
                [saidLine time_str listener.name message] }) world.characters
            let chars₂ := amodify command.listener_id (fun c =>
              { c with narrative_memory := c.narrative_memory ++
                [saidToMeLine time_str speaker.name message] }) chars₁
            let chars₃ := amodify command.listener_id (fun c =>
              { c with narrative_memory := c.narrative_memory ++
                [repliedLine time_str speaker.name response.text] }) chars₂
            let chars₄ := amodify command.speaker_id (fun c =>
              { c with narrative_memory := c.narrative_memory ++
                [repliedToMeLine time_str listener.name response.text] }) chars₃
            -- semantic memory: the speaker learns the newly revealed facts
            let chars₅ := response.newly_revealed_facts.foldl (fun acc fact_id =>
              amodify command.speaker_id (fun sp =>
                if (alookup fact_id sp.knowledge).isSome then sp
                else
                  { sp with
                    knowledge := aset fact_id
                      { fact_id := fact_id, certainty := 1 } sp.knowledge
                    narrative_memory := sp.narrative_memory ++
                      [learnedLine time_str listener.name
                        (match alookup fact_id world.facts with
                         | some f => f.content
                         | none => "a new fact")] }) acc) chars₄
            -- source line 97: world.dialogue_history.append(DialogueEntry(...)).
            -- GameWorld (entities.py) declares no dialogue_history field and
            -- entities.py defines no DialogueEntry class (the module-level
            -- import of it already fails), so execution cannot proceed past
            -- this point: the save, the DialogueOccurred publication and the
            -- compaction checks (source lines 105-117) are unreachable.
            .error { error := .attributeError "GameWorld has no field dialogue_history"
                     world := some { world with characters := chars₅ }
                     saves := [] }

end TalkToCharacterHandler

/-- C6: every validation failure aborts the command synchronously with
the aggregate exactly as it was and nothing persisted. For Move
(source lines 28-42): unknown character, unknown target location, or
a target not connected from the current location each yield a
`ValueError` carrying the untouched input world. For Talk (source
lines 42-55): an unknown world, an unknown speaker, an unknown
listener, or a speaker and listener not co-located each yield a
`ValueError` with the fetched world unmutated and an empty list of
repository saves. -/
theorem validation_errors_abort_before_mutation
    (world : GameWorld) (mcmd : MoveCharacterCommand) (tcmd : TalkToCharacterCommand)
    (repo : String → Option GameWorld)
    (llm : DialogueGenerationContext → DialogueGenerationResponse) :
    (alookup mcmd.character_id world.characters = none →
      MoveCharacterHandler.execute mcmd world =
        .error ("Character not found in world.", world)) ∧
    (∀ ch, alookup mcmd.character_id world.characters = some ch →
      ch.location_id ≠ mcmd.target_location_id →
      alookup mcmd.target_location_id world.locations = none →
      MoveCharacterHandler.execute mcmd world =
        .error ("Target location not found.", world)) ∧
    (∀ ch tl, alookup mcmd.character_id world.characters = some ch →
      ch.location_id ≠ mcmd.target_location_id →
      alookup mcmd.target_location_id world.locations = some tl →
      (∀ cl, alookup ch.location_id world.locations = some cl →
        mcmd.target_location_id ∉ cl.connections) →
      MoveCharacterHandler.execute mcmd world =
        .error ("Location is not accessible from the current location.", world)) ∧
    (repo tcmd.world_id = none →
      TalkToCharacterHandler.execute repo llm tcmd =
        .error { error := .valueError "World not found."
                 world := none
                 saves := [] }) ∧
    (repo tcmd.world_id = some world →
      alookup tcmd.speaker_id world.characters = none →
      TalkToCharacterHandler.execute repo llm tcmd =
        .error { error := .valueError "Speaker not found."
                 world := some world
                 saves := [] }) ∧
    (∀ sp, repo tcmd.world_id = some world →
      alookup tcmd.speaker_id world.characters = some sp →
      alookup tcmd.listener_id world.characters = none →
      TalkToCharacterHandler.execute repo llm tcmd =
        .error { error := .valueError "Listener not found."
                 world := some world
                 saves := [] }) ∧
    (∀ sp li, repo tcmd.world_id = some world →
      alookup tcmd.speaker_id world.characters = some sp →
      alookup tcmd.listener_id world.characters = some li →
      sp.location_id ≠ li.location_id →
      TalkToCharacterHandler.execute repo llm tcmd =
        .error { error := .valueError "Speaker and listener are not in the same location."
                 world := some world
                 saves := [] }) := by
  refine ⟨fun h => ?_, fun ch hch hne ht => ?_, fun ch tl hch hne ht hconn => ?_,
    fun hw => ?_, fun hw hsp => ?_, fun sp hw hsp hli => ?_,
    fun sp li hw hsp hli hloc => ?_⟩
  · unfold MoveCharacterHandler.execute
    simp only [h]
  · unfold MoveCharacterHandler.execute
    simp only [hch, if_neg hne, ht]
  · unfold MoveCharacterHandler.execute
    simp only [hch, if_neg hne, ht]
    cases hcl : alookup ch.location_id world.locations with
    | none => simp
    | some cl => simp only [if_neg (hconn cl hcl)]
  · unfold TalkToCharacterHandler.execute
    simp only [hw]
  · unfold TalkToCharacterHandler.execute
    simp only [hw, hsp]
  · unfold TalkToCharacterHandler.execute
    simp only [hw, hsp, hli]
  · unfold TalkToCharacterHandler.execute
    simp only [hw, hsp, hli, if_pos hloc]

/-! Concrete validation-error fixture: alice on the bridge (no
connections), bob on the deck; moving alice to an unknown location and
talking across locations both fail with the world untouched. -/

def c6Bridge : Location :=
  { id := "bridge", name := "Bridge", description := "bridge", connections := [] }

def c6Deck : Location :=
  { id := "deck", name := "Deck", description := "deck", connections := [] }

def c6Alice : Character :=
  { id := "alice", name := "Alice", description := "a", location_id := "bridge" }

def c6Bob : Character :=
  { id := "bob", name := "Bob", description := "b", location_id := "deck" }

def c6World : GameWorld :=
  { id := "w6", name := "W6", player_id := "alice",
    locations := [("bridge", c6Bridge), ("deck", c6Deck)],
    characters := [("alice", c6Alice), ("bob", c6Bob)] }

def c6Repo : String → Option GameWorld := fun wid =>
  if wid = "w6" then some c6World else none

def c6MoveCmd : MoveCharacterCommand :=
  { world_id := "w6", character_id := "alice",
    target_location_id := "captains_quarters" }

def c6TalkCmd : TalkToCharacterCommand :=
  { world_id := "w6", speaker_id := "alice", listener_id := "bob",
    message := some "hello" }

def c6Llm : DialogueGenerationContext → DialogueGenerationResponse :=
  fun _ => { text := "ok" }

/-- Witness for C6: the unknown-target move and the not-co-located talk
both abort with the untouched world and nothing saved. -/
theorem validation_errors_abort_before_mutation_witness :
    MoveCharacterHandler.execute c6MoveCmd c6World =
      .error ("Target location not found.", c6World) ∧
    TalkToCharacterHandler.execute c6Repo c6Llm c6TalkCmd =
      .error { error := .valueError "Speaker and listener are not in the same location."
               world := some c6World
               saves := [] } := by
  have h := validation_errors_abort_before_mutation c6World c6MoveCmd c6TalkCmd c6Repo c6Llm
  exact ⟨h.2.1 c6Alice (by decide) (by decide) (by decide),
    h.2.2.2.2.2.2 c6Alice c6Bob (by decide) (by decide) (by decide) (by decide)⟩

/-! Concrete talk fixture for the dialogue-session claim: Detective and
Sophie co-located in the library, a talk command with no session id. -/

def c2Library : Location :=
  { id := "library", name := "Library", description := "A quiet room with books." }

def c2Detective : Character :=
  { id := "player", name := "Detective", description := "A keen observer.",
    location_id := "library" }

def c2Sophie : Character :=
  { id := "sophie", name := "Sophie", description := "A nervous artist.",
    location_id := "library" }

def c2World : GameWorld :=
  { id := "test_scenario", name := "Test Scenario", player_id := "player",
    locations := [("library", c2Library)],
    characters := [("player", c2Detective), ("sophie", c2Sophie)],
    facts := [("bloody_knife",
      { id := "bloody_knife", content := "A bloody knife was found." })] }

def c2Repo : String → Option GameWorld := fun wid =>
  if wid = "test_scenario" then some c2World else none

def c2Llm : DialogueGenerationContext → DialogueGenerationResponse :=
  fun _ => { text := "This is a simple response." }

/-- The claimed scenario: no prior session id and no message. -/
def c2Command : TalkToCharacterCommand :=
  { world_id := "test_scenario", speaker_id := "player", listener_id := "sophie" }

/-- The same talk with a message supplied. -/
def c2CommandMsg : TalkToCharacterCommand :=
  { world_id := "test_scenario", speaker_id := "player", listener_id := "sophie",
    message := some "the strange vial" }

/-- The talk handler raised without registering any dialogue session
and without saving: the carried world has an empty active-sessions map
and the save list is empty. -/
def talkNoSessionEvidence (r : Except TalkFailure TalkOutcome) : Bool :=
  match r with
  | .error f =>
    (match f.world with
     | some w => w.active_dialogues.isEmpty
     | none => true) && f.saves.isEmpty
  | .ok _ => false

/-! ### Memory service
(`uin_engine/application/services/memory_service.py`)

`compress_memory_if_needed` is the synchronous threshold check; it
schedules `_summarize_chunk(world.id, character.id, chunk)` as a
detached `asyncio.create_task` and mutates nothing itself. The
embedding returns the (world, character) pair unchanged together with
the list of scheduled task argument tuples. The background task
re-reads the world from the repository (modelled as the association
list of the in-memory store, keyed by world id), summarizes the chunk,
replaces the freshly-read memory prefix, and saves; every exception
inside it is caught and dropped, which the early returns transcribe. -/

/-- The argument tuple of one scheduled `_summarize_chunk` task. -/
structure ScheduledTask where
  world_id : String
  character_id : String
  chunk : List String
deriving Repr, DecidableEq

namespace MemoryService

/-- `MemoryService.compress_memory_if_needed` (defaults: threshold 15,
items_to_summarize 10). -/
def compress_memory_if_needed (world : GameWorld) (character : Character)
    (threshold : Nat := 15) (items_to_summarize : Nat := 10) :
    GameWorld × Character × List ScheduledTask :=
  if character.narrative_memory.length > threshold then
    (world, character,
      [{ world_id := world.id
         character_id := character.id
         chunk := character.narrative_memory.take items_to_summarize }])
  else (world, character, [])

/-- `MemoryService._summarize_chunk`, acting on the repository store
(`InMemoryWorldRepository._worlds`): summarize the joined chunk, re-read
the world, locate the character, replace its memory with
`[summary] + narrative_memory[len(chunk):]`, save. A missing world or
character (and any other exception) is caught, logged and dropped,
leaving the store as it was. -/
def summarize_chunk (summarize : String → String)
    (store : List (String × GameWorld)) (world_id character_id : String)
    (chunk : List String) : List (String × GameWorld) :=
  let summary := summarize (String.intercalate "\n" chunk)
  match alookup world_id store with
  | none => store
  | some world =>
    match alookup character_id world.characters with
    | none => store
    | some character =>
      let new_memory := summary :: character.narrative_memory.drop chunk.length
      let new_characters := amodify character_id
        (fun c => { c with narrative_memory := new_memory }) world.characters
      let world' := { world with characters := new_characters }
      -- repo.save keys the store by the id of the saved object, which
      -- the mutation above leaves untouched
      aset world.id world' store

end MemoryService

/-- C4: the synchronous compaction check schedules exactly one
background task when the narrative memory is strictly longer than the
threshold and zero tasks otherwise, whatever the chunk size, and
mutates neither the world nor the character. -/
theorem compress_memory_if_needed_trigger
    (world : GameWorld) (character : Character) (threshold items : Nat) :
    (MemoryService.compress_memory_if_needed world character threshold items).2.2.length =
      (if threshold < character.narrative_memory.length then 1 else 0) ∧
    (MemoryService.compress_memory_if_needed world character threshold items).1 = world ∧
    (MemoryService.compress_memory_if_needed world character threshold items).2.1 =
      character ∧
    ∀ items',
      (MemoryService.compress_memory_if_needed world character threshold items).2.2.length =
      (MemoryService.compress_memory_if_needed world character threshold items').2.2.length := by
  unfold MemoryService.compress_memory_if_needed
  by_cases h : threshold < character.narrative_memory.length <;>
    simp [h, Nat.lt_irrefl]

/-- C5: for a character whose memory is `e` (twenty entries) both when
the compaction is scheduled (threshold 15, chunk 10) and when the
background task re-reads the store, running the scheduled task leaves
the character's memory in the store equal to the summary of the joined
first ten entries followed by the last ten — eleven entries. -/
theorem compaction_effect
    (summarize : String → String) (store : List (String × GameWorld))
    (worldS : GameWorld) (charS : Character) (worldR : GameWorld) (charR : Character)
    (e : List String) (task : ScheduledTask)
    (he : charS.narrative_memory = e) (hlen : e.length = 20)
    (hsched : MemoryService.compress_memory_if_needed worldS charS 15 10 =
      (worldS, charS, [task]))
    (hread : alookup task.world_id store = some worldR)
    (hid : worldR.id = task.world_id)
    (hchar : alookup task.character_id worldR.characters = some charR)
    (hunchanged : charR.narrative_memory = e) :
    task.chunk = e.take 10 ∧
    ((alookup task.world_id
        (MemoryService.summarize_chunk summarize store task.world_id
          task.character_id task.chunk)).bind
      (fun w => alookup task.character_id w.characters)).map
        Character.narrative_memory =
      some (summarize (String.intercalate "\n" (e.take 10)) :: e.drop 10) ∧
    ((alookup task.world_id
        (MemoryService.summarize_chunk summarize store task.world_id
          task.character_id task.chunk)).bind
      (fun w => alookup task.character_id w.characters)).map
        (fun c => c.narrative_memory.length) = some 11 := by
  have htask : task = { world_id := worldS.id
                        character_id := charS.id
                        chunk := e.take 10 } := by
    unfold MemoryService.compress_memory_if_needed at hsched
    rw [if_pos (by rw [he, hlen]; omega)] at hsched
    have h2 := congrArg (fun p => p.2.2) hsched
    simp only [he] at h2
    exact (((List.cons.injEq _ _ _ _).mp h2).1).symm
  have hchunklen : (e.take 10).length = 10 := by
    rw [List.length_take, hlen]
    decide
  have hdroplen : (e.drop 10).length = 10 := by
    rw [List.length_drop, hlen]
  refine ⟨by rw [htask], ?_, ?_⟩ <;>
  · unfold MemoryService.summarize_chunk
    simp only [hread, hchar, hid, alookup_aset_self, Option.some_bind,
      alookup_amodify_self, Option.map_some]
    simp only [htask, hunchanged, hchunklen]
    simp [hdroplen]

/-! Concrete compaction fixture: Carol with twenty memory entries. -/

def c5Memory : List String := (List.range 20).map (fun i => "e" ++ toString i)

def c5Carol : Character :=
  { id := "carol", name := "Carol", description := "c", location_id := "deck",
    narrative_memory := c5Memory }

def c5World : GameWorld :=
  { id := "w5", name := "W5", player_id := "carol",
    characters := [("carol", c5Carol)] }

def c5Store : List (String × GameWorld) := [("w5", c5World)]

def c5Task : ScheduledTask :=
  { world_id := "w5", character_id := "carol", chunk := c5Memory.take 10 }

def c5Summarize : String → String := fun _ => "This is a summary."

/-- Witness for C5: running the scheduled compaction on Carol's twenty
entries leaves eleven entries in the store, the summary followed by the
last ten. -/
theorem compaction_effect_witness :
    ((alookup "w5" (MemoryService.summarize_chunk c5Summarize c5Store "w5" "carol"
        (c5Memory.take 10))).bind (fun w => alookup "carol" w.characters)).map
      Character.narrative_memory = some ("This is a summary." :: c5Memory.drop 10) ∧
    ((alookup "w5" (MemoryService.summarize_chunk c5Summarize c5Store "w5" "carol"
        (c5Memory.take 10))).bind (fun w => alookup "carol" w.characters)).map
      (fun c => c.narrative_memory.length) = some 11 := by
  have h := compaction_effect c5Summarize c5Store c5World c5Carol c5World c5Carol
    c5Memory c5Task rfl (by decide) (by decide) (by decide) rfl (by decide) rfl
  exact ⟨h.2.1, h.2.2⟩

/-! ### End-dialogue handler
(`uin_engine/application/use_cases/end_dialogue.py`)

`execute` looks up the commanded session; an absent or inactive
session returns the world unchanged (explicitly not an error). For an
active session with non-empty history it renders the history as
`Name: "message"` lines (a `KeyError` if a replica speaker is not in
the character dict), awaits one
`MemoryService.summarize_and_add_to_memory` call per resolvable
participant, marks the session inactive and deletes it from the
active-dialogues map. The embedding additionally returns the list of
summarization calls (participant id, lines fed). -/

namespace MemoryService

/-- Modelled from the spec: `MemoryService.summarize_and_add_to_memory`
is awaited by `EndDialogueHandler.execute` (end_dialogue.py line 35)
but is missing from `memory_service.py` in src, which defines only
`compress_memory_if_needed` and `_summarize_chunk`. Spec section 4.4
(Ended transition) describes it: fold the session history into the
participant's narrative memory via the summarization pathway, one
summarization call per participant, fed that participant's
`Speaker: message` lines. -/
def summarize_and_add_to_memory (summarize : String → String)
    (character : Character) (dialogue_replicas : List String) : Character :=
  { character with narrative_memory := character.narrative_memory ++
      [summarize (String.intercalate "\n" dialogue_replicas)] }

end MemoryService

namespace EndDialogueHandler

/-- One rendered history line (source line 34). -/
def replicaLine (name message : String) : String :=
  name ++ ": \"" ++ message ++ "\""

/-- `[f"{world.characters[r.speaker_id].name}: \"{r.message}\"" for r in
session.history]`; dict subscripting raises `KeyError` for an unknown
speaker. -/
def renderHistory (characters : List (String × Character)) :
    List DialogueReplica → Except PyError (List String)
  | [] => .ok []
  | r :: rest =>
    match alookup r.speaker_id characters with
    | none => .error (.keyError "speaker not in characters")
    | some c =>
      match renderHistory characters rest with
      | .error e => .error e
      | .ok lines => .ok (replicaLine c.name r.message :: lines)

/-- The participant loop of source lines 29-35: for each participant
that resolves in the character dict, render the session history from
the live dict and fold it into that participant's memory, recording
the summarization call. -/
def foldParticipants (summarize : String → String) (history : List DialogueReplica) :
    List String → List (String × Character) →
    Except PyError (List (String × Character) × List (String × List String))
  | [], characters => .ok (characters, [])
  | pid :: rest, characters =>
    match alookup pid characters with
    | none => foldParticipants summarize history rest characters
    | some _ =>
      match renderHistory characters history with
      | .error e => .error e
      | .ok dialogue_replicas =>
        match foldParticipants summarize history rest
          (amodify pid (fun c =>
            MemoryService.summarize_and_add_to_memory summarize c dialogue_replicas)
            characters) with
        | .error e => .error e
        | .ok (chars, calls) => .ok (chars, (pid, dialogue_replicas) :: calls)

/-- `EndDialogueHandler.execute`. -/
def execute (summarize : String → String) (command : EndDialogueCommand)
    (world : GameWorld) :
    Except PyError (GameWorld × List (String × List String)) :=
  match alookup command.session_id world.active_dialogues with
  | none => .ok (world, [])
  | some session =>
    if session.is_active = false then .ok (world, [])
    else
      -- source lines 38-40: mark the session inactive, then delete it
      let deactivated := amodify command.session_id
        (fun s => { s with is_active := false }) world.active_dialogues
      let remaining := aerase command.session_id deactivated
      if session.history.isEmpty then
        .ok ({ world with active_dialogues := remaining }, [])
      else
        match foldParticipants summarize session.history session.participants
          world.characters with
        | .error e => .error e
        | .ok (chars, calls) =>
          .ok ({ world with characters := chars, active_dialogues := remaining }, calls)

end EndDialogueHandler

theorem amodify_map_fst [DecidableEq κ] (k : κ) (f : α → α) (l : List (κ × α)) :
    (amodify k f l).map Prod.fst = l.map Prod.fst := by
  induction l with
  | nil => rfl
  | cons hd tl ih =>
    obtain ⟨k₁, v⟩ := hd
    by_cases h : k₁ = k <;> simp [amodify, h, ih]

/-- Rendering the history reads only character names, so a
name-preserving in-place update of one character does not change it. -/
theorem renderHistory_amodify (k : String) (g : Character → Character)
    (hname : ∀ c, (g c).name = c.name) (characters : List (String × Character))
    (history : List DialogueReplica) :
    EndDialogueHandler.renderHistory (amodify k g characters) history =
      EndDialogueHandler.renderHistory characters history := by
  induction history with
  | nil => rfl
  | cons r rest ih =>
    unfold EndDialogueHandler.renderHistory
    rw [ih]
    by_cases hk : k = r.speaker_id
    · rw [← hk, alookup_amodify_self]
      cases h : alookup k characters with
      | none => rfl
      | some c => simp [hname c]
    · rw [alookup_amodify_ne k r.speaker_id hk]

/-- C3: ending a dialogue whose commanded session id resolves to an
active session with non-empty history performs one summarization call
per participant, each fed the `Speaker: "message"` rendering of the
session history, folds the resulting summary into each participant's
narrative memory, and removes the session from the active-sessions
map; an absent or inactive session returns the world unchanged with no
calls and no error. -/
theorem end_dialogue_execute_spec (summarize : String → String)
    (command : EndDialogueCommand) (world : GameWorld) :
    (alookup command.session_id world.active_dialogues = none →
      EndDialogueHandler.execute summarize command world = .ok (world, [])) ∧
    (∀ session, alookup command.session_id world.active_dialogues = some session →
      session.is_active = false →
      EndDialogueHandler.execute summarize command world = .ok (world, [])) ∧
    (∀ session a b ca cb lines,
      alookup command.session_id world.active_dialogues = some session →
      session.is_active = true →
      session.participants = [a, b] →
      a ≠ b →
      alookup a world.characters = some ca →
      alookup b world.characters = some cb →
      session.history ≠ [] →
      EndDialogueHandler.renderHistory world.characters session.history = .ok lines →
      (world.active_dialogues.map Prod.fst).Nodup →
      ((EndDialogueHandler.execute summarize command world).toOption.map Prod.snd =
          some [(a, lines), (b, lines)] ∧
        (EndDialogueHandler.execute summarize command world).toOption.map
          (fun p => alookup a p.1.characters) =
          some (some (MemoryService.summarize_and_add_to_memory summarize ca lines)) ∧
        (EndDialogueHandler.execute summarize command world).toOption.map
          (fun p => alookup b p.1.characters) =
          some (some (MemoryService.summarize_and_add_to_memory summarize cb lines)) ∧
        (EndDialogueHandler.execute summarize command world).toOption.map
          (fun p => alookup command.session_id p.1.active_dialogues) =
          some none)) := by
  refine ⟨fun h => ?_, fun session hs hinact => ?_,
    fun session a b ca cb lines hs hact hparts hab ha hb hhist hren hnodup => ?_⟩
  · unfold EndDialogueHandler.execute
    simp only [h]
  · unfold EndDialogueHandler.execute
    simp [hs, hinact]
  · have hb₁ : alookup b (amodify a (fun c =>
        MemoryService.summarize_and_add_to_memory summarize c lines)
        world.characters) = some cb := by
      rw [alookup_amodify_ne a b hab]
      exact hb
    have hren₁ : EndDialogueHandler.renderHistory (amodify a (fun c =>
        MemoryService.summarize_and_add_to_memory summarize c lines)
        world.characters) session.history = .ok lines := by
      rw [renderHistory_amodify a
        (fun c => MemoryService.summarize_and_add_to_memory summarize c lines)
        (fun c => rfl)]
      exact hren
    have hfold : EndDialogueHandler.foldParticipants summarize session.history
        [a, b] world.characters =
        .ok (amodify b (fun c =>
            MemoryService.summarize_and_add_to_memory summarize c lines)
          (amodify a (fun c =>
            MemoryService.summarize_and_add_to_memory summarize c lines)
            world.characters),
          [(a, lines), (b, lines)]) := by
      simp only [EndDialogueHandler.foldParticipants, ha, hren, hb₁, hren₁]
    have hexec : EndDialogueHandler.execute summarize command world =
        .ok ({ world with
            characters := amodify b (fun c =>
                MemoryService.summarize_and_add_to_memory summarize c lines)
              (amodify a (fun c =>
                MemoryService.summarize_and_add_to_memory summarize c lines)
                world.characters)
            active_dialogues := aerase command.session_id
              (amodify command.session_id (fun s => { s with is_active := false })
                world.active_dialogues) },
          [(a, lines), (b, lines)]) := by
      unfold EndDialogueHandler.execute
      simp only [hs, hact, hparts, hfold]
      simp [List.isEmpty_iff, hhist]
    refine ⟨?_, ?_, ?_, ?_⟩ <;> rw [hexec]
    · rfl
    · show some (alookup a (amodify b (fun c =>
          MemoryService.summarize_and_add_to_memory summarize c lines)
        (amodify a (fun c =>
          MemoryService.summarize_and_add_to_memory summarize c lines)
          world.characters))) =
        some (some (MemoryService.summarize_and_add_to_memory summarize ca lines))
      rw [alookup_amodify_ne b a (Ne.symm hab), alookup_amodify_self, ha]
      rfl
    · show some (alookup b (amodify b (fun c =>
          MemoryService.summarize_and_add_to_memory summarize c lines)
        (amodify a (fun c =>
          MemoryService.summarize_and_add_to_memory summarize c lines)
          world.characters))) =
        some (some (MemoryService.summarize_and_add_to_memory summarize cb lines))
      rw [alookup_amodify_self, hb₁]
      rfl
    · show some (alookup command.session_id (aerase command.session_id
        (amodify command.session_id (fun s => { s with is_active := false })
          world.active_dialogues))) = some none
      rw [alookup_aerase_self _ _ (by rw [amodify_map_fst]; exact hnodup)]

/-! Concrete end-dialogue fixture: Dave and Erin with an active
two-replica session. -/

def c3Dave : Character :=
  { id := "dave", name := "Dave", description := "d", location_id := "salon" }

def c3Erin : Character :=
  { id := "erin", name := "Erin", description := "er", location_id := "salon" }

def c3Session : DialogueSession :=
  { id := "s1", participants := ["dave", "erin"],
    history := [{ speaker_id := "dave", message := "hi", game_time := 480 },
      { speaker_id := "erin", message := "hello", game_time := 480 }] }

def c3World : GameWorld :=
  { id := "w3", name := "W3", player_id := "dave",
    characters := [("dave", c3Dave), ("erin", c3Erin)],
    active_dialogues := [("s1", c3Session)] }

def c3Command : EndDialogueCommand := { world_id := "w3", session_id := "s1" }

def c3Summarize : String → String := fun _ => "We talked."

def c3Lines : List String := ["Dave: \"hi\"", "Erin: \"hello\""]

/-- Witness for C3: ending Dave and Erin's session makes one
summarization call per participant on the rendered history and drops
the session from the active-sessions map. -/
theorem end_dialogue_execute_spec_witness :
    (EndDialogueHandler.execute c3Summarize c3Command c3World).toOption.map Prod.snd =
      some [("dave", c3Lines), ("erin", c3Lines)] ∧
    (EndDialogueHandler.execute c3Summarize c3Command c3World).toOption.map
      (fun p => alookup "s1" p.1.active_dialogues) = some none := by
  have h := (end_dialogue_execute_spec c3Summarize c3Command c3World).2.2 c3Session
    "dave" "erin" c3Dave c3Erin c3Lines (by decide) rfl rfl (by decide)
    (by decide) (by decide) (by decide) (by rfl) (by decide)
  exact ⟨h.1, h.2.2.2⟩

/-! ### Event bus
(`uin_engine/infrastructure/event_bus/local_event_bus.py`)

`publish` walks the subscription dict and collects the handlers of
every subscribed type the event is an `isinstance` of, then runs them
all concurrently with `asyncio.gather` and returns once all are done.
The embedding returns the invocation list; handlers are abstract
tokens of a type `H`. -/

/-- The event classes a handler can subscribe to: the abstract
`DomainEvent` base class or one of its three concrete subclasses. -/
inductive EventClass where
  | domainEvent
  | characterMoved
  | factDiscovered
  | dialogueOccurred
deriving Repr, DecidableEq

/-- `type(event)`: the runtime class of a published event (always a
concrete subclass; the `DomainEvent` base class is abstract). -/
def DomainEvent.runtimeClass : DomainEvent → EventClass
  | .characterMoved .. => .characterMoved
  | .factDiscovered .. => .factDiscovered
  | .dialogueOccurred .. => .dialogueOccurred

/-- `isinstance(event, subscribed_type)`: true for the event's own
concrete class and for the `DomainEvent` base class; the concrete
subclasses are unrelated to one another. -/
def isinstance (e : DomainEvent) (t : EventClass) : Bool :=
  match t with
  | .domainEvent => true
  | t => decide (e.runtimeClass = t)

/-- `LocalEventBus._subscriptions`: a `defaultdict(list)` from event
class to the handlers registered for it, in insertion order. -/
structure LocalEventBus (H : Type) where
  subscriptions : List (EventClass × List H) := []

namespace LocalEventBus

/-- `subscribe`: append the handler to the list under the event type
(a `defaultdict` creates the empty list on first access). -/
def subscribe (bus : LocalEventBus H) (event_type : EventClass) (handler : H) :
    LocalEventBus H :=
  match alookup event_type bus.subscriptions with
  | some _ =>
    { subscriptions := amodify event_type (fun hs => hs ++ [handler])
        bus.subscriptions }
  | none => { subscriptions := bus.subscriptions ++ [(event_type, [handler])] }

/-- `publish`: the handlers to run, one occurrence per matching
subscription, in dict order; `asyncio.gather` invokes each exactly
once (an empty collection short-circuits to doing nothing). -/
def publish (bus : LocalEventBus H) (event : DomainEvent) : List H :=
  (bus.subscriptions.filter (fun p => isinstance event p.1)).flatMap Prod.snd

end LocalEventBus

theorem count_flatMap_cons {H : Type} [DecidableEq H] (h : H) (t₁ : EventClass)
    (hs : List H) (tl : List (EventClass × List H)) :
    (((t₁, hs) :: tl).flatMap Prod.snd).count h =
      hs.count h + (tl.flatMap Prod.snd).count h := by
  simp [List.flatMap_cons, List.count_append]

theorem count_filter_flatMap_cons {H : Type} [DecidableEq H] (h : H)
    (q : EventClass × List H → Bool) (t₁ : EventClass) (hs : List H)
    (tl : List (EventClass × List H)) :
    ((((t₁, hs) :: tl).filter q).flatMap Prod.snd).count h =
      (if q (t₁, hs) = true then hs.count h else 0) +
        ((tl.filter q).flatMap Prod.snd).count h := by
  by_cases hq : q (t₁, hs) = true <;>
    simp [List.filter_cons, hq, List.flatMap_cons, List.count_append]

/-- A filtered subscription table never holds more occurrences of a
handler than the full table. -/
theorem count_filter_flatMap_le {H : Type} [DecidableEq H] (h : H)
    (q : EventClass × List H → Bool) (subs : List (EventClass × List H)) :
    ((subs.filter q).flatMap Prod.snd).count h ≤ (subs.flatMap Prod.snd).count h := by
  induction subs with
  | nil => simp
  | cons hd tl ih =>
    obtain ⟨t₁, hs⟩ := hd
    rw [count_filter_flatMap_cons, count_flatMap_cons]
    by_cases hq : q (t₁, hs) = true
    · rw [if_pos hq]
      exact Nat.add_le_add_left ih _
    · rw [if_neg hq]
      omega

/-- A handler subscribed exactly once overall, under type `t`, appears
in the dispatch list for `e` exactly `isinstance e t` times. -/
theorem publish_count_aux {H : Type} [DecidableEq H] (e : DomainEvent)
    (t : EventClass) (h : H) (subs : List (EventClass × List H))
    (h1 : (subs.flatMap Prod.snd).count h = 1)
    (h2 : ((subs.filter (fun p => decide (p.1 = t))).flatMap Prod.snd).count h = 1) :
    ((subs.filter (fun p => isinstance e p.1)).flatMap Prod.snd).count h =
      if isinstance e t then 1 else 0 := by
  induction subs with
  | nil => simp at h1
  | cons hd tl ih =>
    obtain ⟨t₁, hs⟩ := hd
    rw [count_flatMap_cons] at h1
    rw [count_filter_flatMap_cons] at h2
    rw [count_filter_flatMap_cons]
    have hle_t := count_filter_flatMap_le h (fun p => decide (p.1 = t)) tl
    have hle_e := count_filter_flatMap_le h (fun p => isinstance e p.1) tl
    by_cases hq : t₁ = t
    · subst hq
      rw [if_pos (by simp)] at h2
      by_cases hz : hs.count h = 0
      · have hres := ih (by omega) (by omega)
        rw [← hres]
        by_cases he : isinstance e t₁ = true <;> simp [he, hz]
      · have hc1 : hs.count h = 1 := by omega
        have hre : ((tl.filter (fun p => isinstance e p.1)).flatMap Prod.snd).count h = 0 := by
          omega
        by_cases he : isinstance e t₁ = true
        · rw [if_pos he, if_pos he]
          omega
        · rw [if_neg he, if_neg he]
          omega
    · rw [if_neg (by simp [hq])] at h2
      have hz : hs.count h = 0 := by omega
      have hres := ih (by omega) (by omega)
      rw [← hres]
      by_cases he : isinstance e t₁ = true <;> simp [he, hz]

/-- C7: a handler subscribed exactly once, under type `t`, is invoked
by `publish` exactly once when the published event is an instance of
`t` (in particular a subscriber to the abstract `DomainEvent` root
receives every event) and zero times otherwise; a publish with no
matching subscription invokes nothing and completes normally. -/
theorem event_bus_dispatch {H : Type} [DecidableEq H]
    (bus : LocalEventBus H) (e : DomainEvent) (t : EventClass) (h : H)
    (htotal : (bus.subscriptions.flatMap Prod.snd).count h = 1)
    (hunder : ((bus.subscriptions.filter (fun p => decide (p.1 = t))).flatMap
      Prod.snd).count h = 1) :
    ((LocalEventBus.publish bus e).count h = if isinstance e t then 1 else 0) ∧
    isinstance e .domainEvent = true ∧
    ((∀ p ∈ bus.subscriptions, isinstance e p.1 = false) →
      LocalEventBus.publish bus e = []) := by
  refine ⟨publish_count_aux e t h bus.subscriptions htotal hunder, rfl, fun hnone => ?_⟩
  unfold LocalEventBus.publish
  rw [List.filter_eq_nil_iff.mpr (fun p hp => by simp [hnone p hp])]
  rfl

/-! Concrete event-bus fixture: handler 1 subscribed to the abstract
root, handler 2 subscribed to `CharacterMoved`. -/

def c7Bus : LocalEventBus Nat :=
  LocalEventBus.subscribe
    (LocalEventBus.subscribe { subscriptions := [] } .domainEvent 1)
    .characterMoved 2

def c7Move : DomainEvent := .characterMoved "sophie" "lounge" "bridge"

def c7Fact : DomainEvent := .factDiscovered "player" "fact1" none none

/-- Witness for C7: publishing a `CharacterMoved` event invokes the
root subscriber and the `CharacterMoved` subscriber exactly once each,
and publishing a `FactDiscovered` event does not invoke the
`CharacterMoved` subscriber. -/
theorem event_bus_dispatch_witness :
    (LocalEventBus.publish c7Bus c7Move).count 2 = 1 ∧
    (LocalEventBus.publish c7Bus c7Move).count 1 = 1 ∧
    (LocalEventBus.publish c7Bus c7Fact).count 2 = 0 := by
  have h2 := (event_bus_dispatch c7Bus c7Move .characterMoved 2
    (by decide) (by decide)).1
  have h1 := (event_bus_dispatch c7Bus c7Move .domainEvent 1
    (by decide) (by decide)).1
  have h3 := (event_bus_dispatch c7Bus c7Fact .characterMoved 2
    (by decide) (by decide)).1
  exact ⟨h2.trans (by decide), h1.trans (by decide), h3.trans (by decide)⟩

/-! ### Examine handler
(`uin_engine/application/use_cases/examine_object.py`)

`execute` validates world, player, player location and the named
object; marks every not-yet-found clue of that object as found,
collecting the mutated clue objects and appending one discovery
narrative line per clue; on an empty discovery it appends a single
"found nothing new" line instead; grants the player a certainty-1.0
knowledge entry per discovered fact; saves the world (in both
branches, so the returned world is exactly what is persisted);
publishes one `FactDiscovered` event per discovered fact (none
otherwise); and runs the compaction check for the player. -/

/-- In-place mutation of the first list element satisfying `p`
(the object fetched by the `next(...)` generator). -/
def modifyFirstP (p : α → Bool) (f : α → α) : List α → List α
  | [] => []
  | x :: rest => if p x then f x :: rest else x :: modifyFirstP p f rest

theorem modifyFirstP_eq_self (p : α → Bool) (f : α → α) (l : List α) (x : α)
    (hfind : l.find? p = some x) (hfx : f x = x) : modifyFirstP p f l = l := by
  induction l with
  | nil => simp at hfind
  | cons hd tl ih =>
    by_cases hp : p hd
    · rw [List.find?_cons_of_pos _ hp] at hfind
      obtain rfl : hd = x := by injection hfind
      simp [modifyFirstP, hp, hfx]
    · rw [List.find?_cons_of_neg _ hp] at hfind
      simp [modifyFirstP, hp, ih hfind]

theorem amodify_eq_self [DecidableEq κ] (k : κ) (f : α → α) (l : List (κ × α))
    (v : α) (hv : alookup k l = some v) (hf : f v = v) : amodify k f l = l := by
  induction l with
  | nil => rfl
  | cons hd tl ih =>
    obtain ⟨k₁, v₁⟩ := hd
    by_cases h : k₁ = k
    · rw [amodify, if_pos h]
      rw [alookup, if_pos h] at hv
      obtain rfl : v₁ = v := by injection hv
      rw [hf]
    · rw [amodify, if_neg h]
      rw [alookup, if_neg h] at hv
      rw [ih hv]

/-- The observable outcome of a successful `ExamineObjectHandler.execute`. -/
structure ExamineOutcome where
  discovered : List Clue
  world : GameWorld
  events : List DomainEvent
  compress_checks : List String
deriving Repr, DecidableEq

namespace ExamineObjectHandler

/-- Discovery narrative line (source line 65). -/
def discoveredLine (time_str objName clueDesc : String) : String :=
  "[" ++ time_str ++ "] I examined the " ++ objName ++
    " and discovered a clue: " ++ clueDesc

/-- "found nothing new" narrative line (source line 71). -/
def nothingNewLine (time_str objName : String) : String :=
  "[" ++ time_str ++ "] I examined the " ++ objName ++ " but found nothing new."

/-- `ExamineObjectHandler.execute`. -/
def execute (repo : String → Option GameWorld) (command : ExamineObjectCommand) :
    Except (String × Option GameWorld) ExamineOutcome :=
  match repo command.world_id with
  | none => .error ("World not found.", none)
  | some world =>
    match alookup command.player_id world.characters with
    | none => .error ("Player not found.", some world)
    | some player =>
      if player.location_id ≠ command.location_id then
        .error ("Player is not in the expected location.", some world)
      else
        match alookup command.location_id world.locations with
        | none => .error ("Location not found.", some world)
        | some current_location =>
          match current_location.objects.find?
            (fun obj => obj.id == command.object_id) with
          | none => .error ("Object not found.", some world)
          | some target_object =>
            let time_str := formatTime world.game_time
            -- the loop marks each unfound clue found and collects the
            -- mutated clue objects, appending one discovery line each
            let discovered_clues := (target_object.clues.filter
              (fun clue => !clue.is_found)).map
              (fun clue => { clue with is_found := true })
            let new_facts_for_player := discovered_clues.map Clue.fact_id
            let new_clues := target_object.clues.map
              (fun clue => if clue.is_found then clue else { clue with is_found := true })
            let markClues := fun (obj : GameObject) => { obj with clues := new_clues }
            let locations := amodify command.location_id (fun loc =>
              { loc with objects := modifyFirstP
                                      (fun obj => obj.id == command.object_id)
                                      markClues loc.objects }) world.locations
            let memory_lines := if discovered_clues.isEmpty then
                [nothingNewLine time_str target_object.name]
              else discovered_clues.map
                (fun clue => discoveredLine time_str target_object.name clue.description)
            let player' := { player with
              narrative_memory := player.narrative_memory ++ memory_lines
              knowledge := new_facts_for_player.foldl
                (fun kn fact_id => aset fact_id
                  { fact_id := fact_id, certainty := 1 } kn) player.knowledge }
            let characters := amodify command.player_id (fun _ => player')
              world.characters
            .ok { discovered := discovered_clues
                  world := { world with locations := locations, characters := characters }
                  events := new_facts_for_player.map (fun fact_id =>
                    .factDiscovered player.id fact_id (some current_location.id)
                      (some ("examining " ++ target_object.name)))
                  compress_checks := [player.id] }

end ExamineObjectHandler

/-- Players as mutated by all-found examination. -/
def notedPlayer (player : Character) (line : String) : Character :=
  { player with narrative_memory := player.narrative_memory ++ [line] }

/-- The player after `n` all-found examinations. -/
def playerAfter (player : Character) (n : Nat) (line : String) : Character :=
  { player with narrative_memory := player.narrative_memory ++ List.replicate n line }

theorem notedPlayer_playerAfter (player : Character) (n : Nat) (line : String) :
    notedPlayer (playerAfter player n line) line = playerAfter player (n + 1) line := by
  simp [notedPlayer, playerAfter, List.replicate_succ', List.append_assoc]

namespace ExamineObjectHandler

/-- Executing examine on an object whose clues are all found: no
discovery, no event, no knowledge change, no clue change; the only
mutation is the single "found nothing new" narrative line. -/
theorem execute_all_found (w : GameWorld) (command : ExamineObjectCommand)
    (player : Character) (loc : Location) (obj : GameObject)
    (hp : alookup command.player_id w.characters = some player)
    (hploc : player.location_id = command.location_id)
    (hl : alookup command.location_id w.locations = some loc)
    (hobj : loc.objects.find? (fun o => o.id == command.object_id) = some obj)
    (hfound : obj.clues.all Clue.is_found = true) :
    execute (fun _ => some w) command = .ok
      { discovered := []
        world := { w with characters :=
                            amodify command.player_id
                              (fun _ => notedPlayer player
                                (nothingNewLine (formatTime w.game_time) obj.name))
                              w.characters }
        events := []
        compress_checks := [player.id] } := by
  have hfilter : obj.clues.filter (fun clue => !clue.is_found) = [] := by
    rw [List.filter_eq_nil_iff]
    intro c hc
    simp [List.all_eq_true.mp hfound c hc]
  have hmap : obj.clues.map (fun clue => if clue.is_found then clue
      else { clue with is_found := true }) = obj.clues := by
    rw [List.map_congr_left (g := id)
      (fun c hc => by simp [List.all_eq_true.mp hfound c hc]), List.map_id]
  have hamod : amodify command.location_id
      (fun l => { l with objects :=
                           modifyFirstP (fun o => o.id == command.object_id)
                             (fun o => { o with clues := obj.clues })
                             l.objects }) w.locations =
      w.locations := by
    refine amodify_eq_self _ _ _ loc hl ?_
    rw [modifyFirstP_eq_self _ _ _ obj hobj rfl]
  unfold execute
  simp only [hp, hl, hobj]
  rw [if_neg (by simp [hploc])]
  simp only [hfilter, hmap, List.map_nil, List.isEmpty_nil, if_pos rfl, if_true,
    List.foldl_nil, hamod, notedPlayer]

end ExamineObjectHandler

/-- Repeated examination: the world after `n` examine calls, each call
reading the world the previous call saved. -/
def examineIterate (command : ExamineObjectCommand) (world : GameWorld) :
    Nat → GameWorld
  | 0 => world
  | n + 1 =>
    match ExamineObjectHandler.execute
      (fun _ => some (examineIterate command world n)) command with
    | .ok outcome => outcome.world
    | .error _ => examineIterate command world n

/-- Invariant of repeated all-found examination: the player only
accumulates one "found nothing new" line per call; locations and the
clock never change. -/
theorem examineIterate_spec (command : ExamineObjectCommand) (world : GameWorld)
    (player : Character) (loc : Location) (obj : GameObject)
    (hp : alookup command.player_id world.characters = some player)
    (hploc : player.location_id = command.location_id)
    (hl : alookup command.location_id world.locations = some loc)
    (hobj : loc.objects.find? (fun o => o.id == command.object_id) = some obj)
    (hfound : obj.clues.all Clue.is_found = true) :
    ∀ n,
      alookup command.player_id (examineIterate command world n).characters =
        some (playerAfter player n
          (ExamineObjectHandler.nothingNewLine (formatTime world.game_time)
            obj.name)) ∧
      (examineIterate command world n).locations = world.locations ∧
      (examineIterate command world n).game_time = world.game_time := by
  intro n
  induction n with
  | zero =>
    refine ⟨?_, rfl, rfl⟩
    show alookup command.player_id world.characters = _
    rw [hp]
    simp [playerAfter]
  | succ n ih =>
    obtain ⟨ihp, ihl, iht⟩ := ih
    have hl2 : alookup command.location_id
        (examineIterate command world n).locations = some loc := by
      rw [ihl]
      exact hl
    have hexec := ExamineObjectHandler.execute_all_found
      (examineIterate command world n) command _ loc obj ihp hploc hl2 hobj hfound
    have hstep : examineIterate command world (n + 1) =
        { examineIterate command world n with
          characters := amodify command.player_id
            (fun _ => notedPlayer
              (playerAfter player n
                (ExamineObjectHandler.nothingNewLine (formatTime world.game_time)
                  obj.name))
              (ExamineObjectHandler.nothingNewLine
                (formatTime (examineIterate command world n).game_time) obj.name))
            (examineIterate command world n).characters } := by
      show (match ExamineObjectHandler.execute
        (fun _ => some (examineIterate command world n)) command with
        | .ok outcome => outcome.world
        | .error _ => examineIterate command world n) = _
      rw [hexec]
    refine ⟨?_, ?_, ?_⟩
    · rw [hstep]
      show alookup command.player_id (amodify command.player_id _ _) = _
      rw [alookup_amodify_self, ihp, iht, Option.map_some', notedPlayer_playerAfter]
    · rw [hstep]
      show (examineIterate command world n).locations = world.locations
      exact ihl
    · rw [hstep]
      show (examineIterate command world n).game_time = world.game_time
      exact iht

/-- C9: for a valid examine command whose target object's clues are all
already found, every one of any number of repeated calls returns an
empty discovered-clue list, publishes no event, leaves the player's
knowledge exactly as it was, and leaves the object (its clues and
their `is_found` flags included) unchanged. -/
theorem examine_all_found_idempotent (command : ExamineObjectCommand)
    (world : GameWorld) (player : Character) (loc : Location) (obj : GameObject)
    (hp : alookup command.player_id world.characters = some player)
    (hploc : player.location_id = command.location_id)
    (hl : alookup command.location_id world.locations = some loc)
    (hobj : loc.objects.find? (fun o => o.id == command.object_id) = some obj)
    (hfound : obj.clues.all Clue.is_found = true) :
    ∀ n,
      (ExamineObjectHandler.execute
        (fun _ => some (examineIterate command world n)) command).toOption.map
        ExamineOutcome.discovered = some [] ∧
      (ExamineObjectHandler.execute
        (fun _ => some (examineIterate command world n)) command).toOption.map
        ExamineOutcome.events = some [] ∧
      (ExamineObjectHandler.execute
        (fun _ => some (examineIterate command world n)) command).toOption.map
        (fun o => (alookup command.player_id o.world.characters).map
          Character.knowledge) = some (some player.knowledge) ∧
      (ExamineObjectHandler.execute
        (fun _ => some (examineIterate command world n)) command).toOption.map
        (fun o => (alookup command.location_id o.world.locations).bind
          (fun l => l.objects.find? (fun ob => ob.id == command.object_id))) =
        some (some obj) := by
  intro n
  obtain ⟨ihp, ihl, iht⟩ := examineIterate_spec command world player loc obj
    hp hploc hl hobj hfound n
  have hl2 : alookup command.location_id
      (examineIterate command world n).locations = some loc := by
    rw [ihl]
    exact hl
  have hexec := ExamineObjectHandler.execute_all_found
    (examineIterate command world n) command _ loc obj ihp hploc hl2 hobj hfound
  rw [hexec]
  refine ⟨rfl, rfl, ?_, ?_⟩
  · show some ((alookup command.player_id (amodify command.player_id _ _)).map
      Character.knowledge) = _
    rw [alookup_amodify_self, ihp]
    rfl
  · show some ((alookup command.location_id
      (examineIterate command world n).locations).bind
      (fun l => l.objects.find? (fun ob => ob.id == command.object_id))) = _
    rw [hl2]
    show some (loc.objects.find? (fun ob => ob.id == command.object_id)) = _
    rw [hobj]

/-! Concrete examine fixture: a desk whose only clue is already found. -/

def c9Clue : Clue :=
  { fact_id := "fact_about_clue", description := "A hidden note.",
    difficulty := 1, is_found := true }

def c9Desk : GameObject :=
  { id := "test_desk", name := "Desk", description := "A sturdy wooden desk.",
    clues := [c9Clue] }

def c9Room : Location :=
  { id := "test_room", name := "Test Room", description := "A simple test room.",
    objects := [c9Desk] }

def c9Player : Character :=
  { id := "player", name := "Test Player", description := "",
    location_id := "test_room" }

def c9World : GameWorld :=
  { id := "w9", name := "W9", player_id := "player",
    locations := [("test_room", c9Room)],
    characters := [("player", c9Player)] }

def c9Command : ExamineObjectCommand :=
  { world_id := "w9", player_id := "player", object_id := "test_desk",
    location_id := "test_room" }

/-- Witness for C9: the third repeated examine call still discovers
nothing, fires no event, and leaves the desk unchanged. -/
theorem examine_all_found_idempotent_witness :
    (ExamineObjectHandler.execute
      (fun _ => some (examineIterate c9Command c9World 2)) c9Command).toOption.map
      ExamineOutcome.discovered = some [] ∧
    (ExamineObjectHandler.execute
      (fun _ => some (examineIterate c9Command c9World 2)) c9Command).toOption.map
      ExamineOutcome.events = some [] ∧
    (ExamineObjectHandler.execute
      (fun _ => some (examineIterate c9Command c9World 2)) c9Command).toOption.map
      (fun o => (alookup "test_room" o.world.locations).bind
        (fun l => l.objects.find? (fun ob => ob.id == "test_desk"))) =
      some (some c9Desk) := by
  have h := examine_all_found_idempotent c9Command c9World c9Player c9Room c9Desk
    (by decide) (by decide) (by decide) (by decide) (by decide) 2
  exact ⟨h.1, h.2.1, h.2.2.2⟩

/-! ### NPC behavior system
(`uin_engine/application/services/npc_behavior_system.py`)

`execute_npc_behaviors` iterates the character dict, skips the player,
finds the first schedule entry whose parsed time equals the clock
captured at entry, and performs at most one action per character per
tick. A "move" action with a target builds a `MoveCharacterCommand`
and calls `self._move_handler.execute(command)` — but
`MoveCharacterHandler.execute` (move_character.py line 19) takes a
second required positional parameter `world`, so Python raises
`TypeError` at the call site, before the handler body runs; the
surrounding `except ValueError` clause (line 78) does not catch a
`TypeError`, so the error propagates out of the loop and aborts the
whole tick. (The system's own test mocks the move handler with an
`AsyncMock`, which hides the arity mismatch; the container also
constructs `NPCBehaviorSystem` without its required
`world_repository` argument.) -/

namespace NPCBehaviorSystem

/-- `GAME_TIME_INCREMENT_MINUTES`. -/
def GAME_TIME_INCREMENT_MINUTES : Nat := 10

/-- `update_game_time`: add the fixed increment, wrapping within the
24-hour cycle (`datetime` arithmetic keeps only the time part). -/
def update_game_time (world : GameWorld) : GameWorld :=
  { world with game_time := (world.game_time + GAME_TIME_INCREMENT_MINUTES) % (24 * 60) }

/-- `_perform_scheduled_action` (source lines 65-81): only "move" with
a target has behavior; other action types are inert placeholders. -/
def perform_scheduled_action (character : Character) (entry : ScheduleEntry)
    (world : GameWorld) : Except PyError GameWorld :=
  -- `if entry.action_type == "move" and entry.target:` — a None or
  -- empty-string target is falsy
  if entry.action_type = "move" ∧ entry.target ≠ none ∧ entry.target ≠ some "" then
    -- source line 76: `await self._move_handler.execute(command)` omits
    -- the required second positional argument `world` of
    -- MoveCharacterHandler.execute, so the call raises TypeError before
    -- the handler runs, and `except ValueError` does not catch it.
    .error (.typeError
      "execute() missing 1 required positional argument: world")
  else .ok world

/-- The character loop of `execute_npc_behaviors` (source lines
51-62), with the clock value captured before the loop. -/
def behaviorsLoop (player_id : String) (current_game_time : Nat) :
    List (String × Character) → GameWorld → Except PyError GameWorld
  | [], world => .ok world
  | (character_id, character) :: rest, world =>
    if character_id = player_id then
      behaviorsLoop player_id current_game_time rest world
    else
      match character.schedule.find? (fun entry => entry.time == current_game_time) with
      | none => behaviorsLoop player_id current_game_time rest world
      | some entry =>
        match perform_scheduled_action character entry world with
        | .error e => .error e
        | .ok world => behaviorsLoop player_id current_game_time rest world

/-- `execute_npc_behaviors`. -/
def execute_npc_behaviors (world : GameWorld) : Except PyError GameWorld :=
  behaviorsLoop world.player_id world.game_time world.characters world

end NPCBehaviorSystem

/-! Concrete NPC fixture: lounge and bridge connected both ways;
Sophie and Mark each have a valid scheduled move at 08:10. -/

def c8Lounge : Location :=
  { id := "lounge", name := "Lounge", description := "lounge",
    connections := ["bridge"] }

def c8Bridge : Location :=
  { id := "bridge", name := "Bridge", description := "bridge",
    connections := ["lounge"] }

def c8Player : Character :=
  { id := "player", name := "Player", description := "p", location_id := "bridge" }

def c8Sophie : Character :=
  { id := "sophie", name := "Sophie", description := "s", location_id := "lounge",
    schedule := [{ time := 490, action_type := "move", target := some "bridge" }] }

def c8Mark : Character :=
  { id := "mark", name := "Mark", description := "m", location_id := "bridge",
    schedule := [{ time := 490, action_type := "move", target := some "lounge" }] }

def c8World : GameWorld :=
  { id := "w8", name := "W8", player_id := "player",
    locations := [("lounge", c8Lounge), ("bridge", c8Bridge)],
    characters := [("player", c8Player), ("sophie", c8Sophie), ("mark", c8Mark)],
    game_time := 490 }

def c8SophieMove : MoveCharacterCommand :=
  { world_id := "w8", character_id := "sophie", target_location_id := "bridge" }

/-- Whether an `Except` result is a success. -/
def exceptIsOk : Except ε α → Bool
  | .ok _ => true
  | .error _ => false

/-- C8 (evidence of the divergence): at 08:10 Sophie's perfectly valid
scheduled move — which `MoveCharacterHandler.execute` itself performs
successfully when called with both arguments — makes the tick raise
`TypeError` out of the mis-arity delegation call, which the
`except ValueError` clause does not catch, so Mark (and everyone after
the first scheduled mover) is never processed. -/
theorem npc_move_delegation_raises :
    NPCBehaviorSystem.execute_npc_behaviors c8World =
      .error (.typeError
        "execute() missing 1 required positional argument: world") ∧
    exceptIsOk (MoveCharacterHandler.execute c8SophieMove c8World) = true := by
  exact ⟨rfl, rfl⟩

/-- C2 (evidence of the divergence): on a valid co-located talk command
with no session id and no message, the handler raises the pydantic
validation error for the required `current_topic` field with the world
untouched, creating no `DialogueSession`; and even with a message
supplied it raises at the nonexistent `world.dialogue_history` field
before any session bookkeeping, again leaving the active-sessions map
empty. The handler never touches `active_dialogues` at all. -/
theorem talk_execute_creates_no_session :
    TalkToCharacterHandler.execute c2Repo c2Llm c2Command =
      .error { error := .validationError "current_topic must be a string"
               world := some c2World
               saves := [] } ∧
    c2World.active_dialogues = [] ∧
    talkNoSessionEvidence (TalkToCharacterHandler.execute c2Repo c2Llm c2CommandMsg) =
      true := by
  refine ⟨?_, rfl, ?_⟩ <;> rfl

end UinEngine
